import Mathlib

/-!
Verification of the scroll-spy resolver and the intersection-observer
animation hooks of the portfolio site.

The embedded code is:
* `MainLayout.handleScroll` and its `throttledHandleScroll` wrapper
  (src/components/layout/MainLayout.tsx);
* `Navigation.handleNavClick` (src/components/layout/Navigation.tsx);
* the `useIntersectionObserver` hook (src/hooks/useIntersectionObserver.ts).

Lengths and offsets are rationals; booleans are booleans.  React state
updates are modelled as explicit state passing.
-/

namespace Portfolio

/-- A page region's measured geometry: `top` is `rect.top + window.scrollY`
(absolute page offset) and `height` is `rect.height`, as read inside
`handleScroll`. -/
structure Region where
  top : ℚ
  height : ℚ
  deriving DecidableEq, Repr

/-- The hardcoded section id list of `MainLayout.handleScroll`. -/
def sections : List String :=
  ["hero", "experience", "projects", "education", "skills", "contact"]

/-- The per-region visibility computation of `handleScroll`:
`visibleTop = max(elementTop, scrollY)`,
`visibleBottom = min(elementBottom, scrollY + innerHeight)`,
`visibleHeight = max(0, visibleBottom - visibleTop)`,
`visibility = visibleHeight / rect.height`.
For `height = 0` the overlap is provably `0` and the source's JavaScript
division `0 / 0` yields NaN; here rational division by zero yields `0`,
and `resolveLoopJS_eq_resolveLoop` below proves the two semantics give the
same selection. -/
def visibilityRatio (scrollY innerHeight : ℚ) (r : Region) : ℚ :=
  let elementTop := r.top
  let elementBottom := elementTop + r.height
  let visibleTop := max elementTop scrollY
  let visibleBottom := min elementBottom (scrollY + innerHeight)
  let visibleHeight := max 0 (visibleBottom - visibleTop)
  visibleHeight / r.height

/-- Visibility ratio of a section id under a `document.getElementById`
lookup; an unresolvable id contributes ratio `0` (it is skipped by the
loop, which is behaviourally the same as never exceeding the running
maximum). -/
def ratioOf (lookup : String → Option Region) (scrollY innerHeight : ℚ)
    (sid : String) : ℚ :=
  match lookup sid with
  | some r => visibilityRatio scrollY innerHeight r
  | none => 0

/-- The `for (const sectionId of sections)` loop of `handleScroll`:
accumulator is `(currentSection, maxVisibility)`; a section with no
element is skipped; the accumulator is replaced exactly when
`visibility > maxVisibility` (strict). -/
def resolveLoop (lookup : String → Option Region) (scrollY innerHeight : ℚ) :
    List String → String → ℚ → String × ℚ
  | [], cur, maxV => (cur, maxV)
  | sid :: rest, cur, maxV =>
    match lookup sid with
    | none => resolveLoop lookup scrollY innerHeight rest cur maxV
    | some r =>
      let visibility := visibilityRatio scrollY innerHeight r
      if maxV < visibility then
        resolveLoop lookup scrollY innerHeight rest sid visibility
      else
        resolveLoop lookup scrollY innerHeight rest cur maxV

/-- The winning section id of one `handleScroll` pass over `secs`, starting
from the source's initialisation `currentSection = dflt`,
`maxVisibility = 0`. -/
def resolveCurrentFrom (secs : List String) (dflt : String)
    (lookup : String → Option Region) (scrollY innerHeight : ℚ) : String :=
  (resolveLoop lookup scrollY innerHeight secs dflt 0).1

/-- One full `handleScroll` pass: compute the winner over the hardcoded
`sections` with default `'hero'`, then
`if (currentSection !== activeSection) setActiveSection(currentSection)`.
Returns the post-pass active section. -/
def handleScroll (lookup : String → Option Region) (scrollY innerHeight : ℚ)
    (activeSection : String) : String :=
  let currentSection := resolveCurrentFrom sections "hero" lookup scrollY innerHeight
  if currentSection ≠ activeSection then currentSection else activeSection

/-- JavaScript-float view of the ratio: when `rect.height = 0` the overlap
is `0` (see `visibleOverlap_eq_zero_of_height_eq_zero`) so the source
computes `0 / 0 = NaN`, modelled as `none`; a NaN never satisfies
`visibility > maxVisibility`. -/
def visibilityRatioJS (scrollY innerHeight : ℚ) (r : Region) : Option ℚ :=
  if r.height = 0 then none
  else some (visibilityRatio scrollY innerHeight r)

/-- The same loop under the JavaScript-float view of `0 / 0`: a NaN ratio
never wins the comparison, so the accumulator is kept unchanged. -/
def resolveLoopJS (lookup : String → Option Region) (scrollY innerHeight : ℚ) :
    List String → String → ℚ → String × ℚ
  | [], cur, maxV => (cur, maxV)
  | sid :: rest, cur, maxV =>
    match lookup sid with
    | none => resolveLoopJS lookup scrollY innerHeight rest cur maxV
    | some r =>
      match visibilityRatioJS scrollY innerHeight r with
      | none => resolveLoopJS lookup scrollY innerHeight rest cur maxV
      | some v =>
        if maxV < v then
          resolveLoopJS lookup scrollY innerHeight rest sid v
        else
          resolveLoopJS lookup scrollY innerHeight rest cur maxV

/-- No section has a positive visibility ratio at this scroll state. -/
def noPositiveRatio (lookup : String → Option Region)
    (scrollY innerHeight : ℚ) : Prop :=
  ∀ sid ∈ sections, ratioOf lookup scrollY innerHeight sid ≤ 0

instance (lookup : String → Option Region) (scrollY innerHeight : ℚ) :
    Decidable (noPositiveRatio lookup scrollY innerHeight) :=
  List.decidableBAll _ sections

/-- The concrete layout of the spec's scenarios: six sections, each
1024px tall, stacked gaplessly from page offset 0. -/
def lookup6 : String → Option Region := fun sid =>
  if sid = "hero" then some ⟨0, 1024⟩
  else if sid = "experience" then some ⟨1024, 1024⟩
  else if sid = "projects" then some ⟨2048, 1024⟩
  else if sid = "education" then some ⟨3072, 1024⟩
  else if sid = "skills" then some ⟨4096, 1024⟩
  else if sid = "contact" then some ⟨5120, 1024⟩
  else none

/-- A degenerate layout: only `hero` resolves, and it has height 0. -/
def lookupZero : String → Option Region := fun sid =>
  if sid = "hero" then some ⟨0, 0⟩ else none

/-- State of the `useIntersectionObserver` hook:
the `isIntersecting` and `hasTriggered` `useState` cells. -/
structure ObserverState where
  isIntersecting : Bool
  hasTriggered : Bool
  deriving DecidableEq, Repr

/-- The IntersectionObserver callback of `useIntersectionObserver`, as a
state transformer.  `isCurrentlyIntersecting` is `entry.isIntersecting`
of the notification. -/
def observerCallback (triggerOnce : Bool) (isCurrentlyIntersecting : Bool)
    (s : ObserverState) : ObserverState :=
  if isCurrentlyIntersecting && (!s.hasTriggered || !triggerOnce) then
    { isIntersecting := true,
      hasTriggered := if triggerOnce then true else s.hasTriggered }
  else if !triggerOnce then
    { s with isIntersecting := isCurrentlyIntersecting }
  else s

/-- The hook's returned `isIntersecting` field:
`triggerOnce ? (hasTriggered || isIntersecting) : isIntersecting`. -/
def exposedIsIntersecting (triggerOnce : Bool) (s : ObserverState) : Bool :=
  if triggerOnce then s.hasTriggered || s.isIntersecting else s.isIntersecting

/-- A run of observation notifications through the callback. -/
def runCallbacks (triggerOnce : Bool) (s : ObserverState)
    (notes : List Bool) : ObserverState :=
  notes.foldl (fun st b => observerCallback triggerOnce b st) s

/-- Options passed to the IntersectionObserver constructor. -/
structure ObserverConfig where
  threshold : ℚ
  rootMargin : String
  deriving DecidableEq, Repr

/-- The hook's mount effect.  The source (useIntersectionObserver.ts)
runs, in order: `if (!element) return;` — then the reduced-motion check,
which sets both state cells true and returns without observing — then
`new IntersectionObserver(...)` unconditionally.  A host without the
IntersectionObserver constructor throws a TypeError at that point; the
throw is modelled as the `Except.error` branch.  The `Option
ObserverConfig` component is the subscription that was created, if any. -/
def mountEffect (elementAttached prefersReducedMotion observerSupported : Bool)
    (threshold : ℚ) (rootMargin : String) (s : ObserverState) :
    Except String (ObserverState × Option ObserverConfig) :=
  if !elementAttached then .ok (s, none)
  else if prefersReducedMotion then
    .ok ({ isIntersecting := true, hasTriggered := true }, none)
  else if observerSupported then .ok (s, some ⟨threshold, rootMargin⟩)
  else .error "TypeError: IntersectionObserver is not a constructor"

/-- Navigation component state relevant to a click: the layout's
`activeSection` (written through `onSectionChange`) and the local
`isMenuOpen`. -/
structure NavState where
  activeSection : String
  isMenuOpen : Bool
  deriving DecidableEq, Repr

/-- `Navigation.handleNavClick`: synchronously `onSectionChange(item.id)`
(which is `MainLayout.handleSectionChange`, i.e. `setActiveSection`),
close the menu, then `document.getElementById(item.id)` and, only if an
element is found, request `scrollIntoView`.  The second component is the
scroll request issued, if any. -/
def handleNavClick (getElementById : String → Bool) (item : String)
    (_s : NavState) : NavState × Option String :=
  ({ activeSection := item, isMenuOpen := false },
   if getElementById item then some item else none)

/-- State of the `throttledHandleScroll` closure: the `ticking` flag, the
number of requestAnimationFrame callbacks currently scheduled, and the
list of scroll positions at which `handleScroll` has actually run. -/
structure ThrottleState where
  ticking : Bool
  pendingFrames : ℕ
  recomputations : List ℚ
  deriving DecidableEq, Repr

/-- Events driving the throttle: a scroll notification, or a scheduled
animation frame firing while the page is at scroll position `scrollY`. -/
inductive ScrollEvent where
  | scrollNote : ScrollEvent
  | frameRun : ℚ → ScrollEvent
  deriving DecidableEq, Repr

/-- One step of `throttledHandleScroll`: a scroll notification schedules a
frame and sets `ticking` only when `ticking` is false, otherwise it is
dropped; a firing frame runs `handleScroll` (recording the scroll
position read at frame time) and clears `ticking`. -/
def throttleStep (s : ThrottleState) : ScrollEvent → ThrottleState
  | .scrollNote =>
    if !s.ticking then
      { s with pendingFrames := s.pendingFrames + 1, ticking := true }
    else s
  | .frameRun scrollY =>
    if s.pendingFrames ≠ 0 then
      { ticking := false, pendingFrames := s.pendingFrames - 1,
        recomputations := s.recomputations ++ [scrollY] }
    else s

/-- Mount of the scroll-spy effect: no frame pending, and one eager
`handleScroll()` already run at the mount scroll position. -/
def mountThrottle (initialScrollY : ℚ) : ThrottleState :=
  { ticking := false, pendingFrames := 0, recomputations := [initialScrollY] }

/-- Run a sequence of events through the throttle. -/
def runEvents (s : ThrottleState) (evs : List ScrollEvent) : ThrottleState :=
  evs.foldl throttleStep s

/-- Invariant of the throttle: a frame is scheduled exactly while
`ticking` is set. -/
def ThrottleInv (s : ThrottleState) : Prop :=
  s.pendingFrames = if s.ticking then 1 else 0

/-! ## Basic lemmas about the resolver loop -/

theorem visibilityRatio_nonneg (scrollY innerHeight : ℚ) (r : Region)
    (h : 0 ≤ r.height) : 0 ≤ visibilityRatio scrollY innerHeight r :=
  div_nonneg (le_max_left 0 _) h

theorem visibilityRatio_of_height_eq_zero (scrollY innerHeight : ℚ)
    (r : Region) (h : r.height = 0) :
    visibilityRatio scrollY innerHeight r = 0 := by
  simp [visibilityRatio, h]

/-- When the region is degenerate the measured overlap itself is `0`, so
the source's division is literally `0 / 0`. -/
theorem visibleOverlap_eq_zero_of_height_eq_zero (scrollY innerHeight : ℚ)
    (r : Region) (h : r.height = 0) :
    max 0 (min (r.top + r.height) (scrollY + innerHeight) - max r.top scrollY)
      = 0 := by
  rw [h, add_zero]
  refine max_eq_left (sub_nonpos.mpr ?_)
  exact le_trans (min_le_left _ _) (le_max_left _ _)

theorem ratioOf_eq_of_lookup (lookup : String → Option Region)
    (scrollY innerHeight : ℚ) {sid : String} {r : Region}
    (h : lookup sid = some r) :
    ratioOf lookup scrollY innerHeight sid
      = visibilityRatio scrollY innerHeight r := by
  simp [ratioOf, h]

theorem resolveLoop_cons_none (lookup : String → Option Region)
    (scrollY innerHeight : ℚ) {sid : String} (rest : List String)
    (cur : String) (m : ℚ) (h : lookup sid = none) :
    resolveLoop lookup scrollY innerHeight (sid :: rest) cur m
      = resolveLoop lookup scrollY innerHeight rest cur m := by
  simp [resolveLoop, h]

theorem resolveLoop_cons_some (lookup : String → Option Region)
    (scrollY innerHeight : ℚ) {sid : String} {r : Region} (rest : List String)
    (cur : String) (m : ℚ) (h : lookup sid = some r) :
    resolveLoop lookup scrollY innerHeight (sid :: rest) cur m
      = if m < visibilityRatio scrollY innerHeight r then
          resolveLoop lookup scrollY innerHeight rest sid
            (visibilityRatio scrollY innerHeight r)
        else resolveLoop lookup scrollY innerHeight rest cur m := by
  simp [resolveLoop, h]

/-- If no resolvable section beats the running maximum, the loop leaves
the accumulator untouched. -/
theorem resolveLoop_no_update (lookup : String → Option Region)
    (scrollY innerHeight : ℚ) :
    ∀ (l : List String) (cur : String) (m : ℚ),
      (∀ sid ∈ l, ∀ r, lookup sid = some r →
          visibilityRatio scrollY innerHeight r ≤ m) →
      resolveLoop lookup scrollY innerHeight l cur m = (cur, m) := by
  intro l
  induction l with
  | nil => intro cur m _; rfl
  | cons sid rest ih =>
    intro cur m h
    cases hr : lookup sid with
    | none =>
      rw [resolveLoop_cons_none lookup scrollY innerHeight rest cur m hr]
      exact ih cur m fun t ht r h' => h t (List.mem_cons_of_mem _ ht) r h'
    | some r =>
      rw [resolveLoop_cons_some lookup scrollY innerHeight rest cur m hr,
        if_neg (not_lt.mpr (h sid (List.mem_cons_self _ _) r hr))]
      exact ih cur m fun t ht r' h' => h t (List.mem_cons_of_mem _ ht) r' h'

/-- Complete characterisation of one loop pass: either no resolvable
section beats the initial maximum and the accumulator survives, or the
result is the first section attaining the overall maximum ratio — every
strictly earlier resolvable section has a strictly smaller ratio, and no
section anywhere has a larger one. -/
theorem resolveLoop_spec (lookup : String → Option Region)
    (scrollY innerHeight : ℚ) :
    ∀ (l : List String) (cur : String) (m : ℚ),
      (resolveLoop lookup scrollY innerHeight l cur m = (cur, m) ∧
        ∀ sid ∈ l, ∀ r, lookup sid = some r →
          visibilityRatio scrollY innerHeight r ≤ m)
      ∨ (∃ pre sid post r, l = pre ++ sid :: post ∧ lookup sid = some r ∧
          resolveLoop lookup scrollY innerHeight l cur m
            = (sid, visibilityRatio scrollY innerHeight r) ∧
          m < visibilityRatio scrollY innerHeight r ∧
          (∀ t ∈ pre, ∀ r', lookup t = some r' →
            visibilityRatio scrollY innerHeight r'
              < visibilityRatio scrollY innerHeight r) ∧
          (∀ t ∈ l, ∀ r', lookup t = some r' →
            visibilityRatio scrollY innerHeight r'
              ≤ visibilityRatio scrollY innerHeight r)) := by
  intro l
  induction l with
  | nil => intro cur m; left; exact ⟨rfl, by simp⟩
  | cons sid rest ih =>
    intro cur m
    cases hr : lookup sid with
    | none =>
      rcases ih cur m with ⟨heq, hb⟩ |
        ⟨pre, sid', post, r', hsplit, hr', heq, hm, hpre, hall⟩
      · left
        refine ⟨?_, ?_⟩
        · rw [resolveLoop_cons_none lookup scrollY innerHeight rest cur m hr]
          exact heq
        · intro t ht q h'
          rcases List.mem_cons.mp ht with rfl | ht'
          · rw [hr] at h'; cases h'
          · exact hb t ht' q h'
      · right
        refine ⟨sid :: pre, sid', post, r', by rw [hsplit]; rfl, hr', ?_, hm,
          ?_, ?_⟩
        · rw [resolveLoop_cons_none lookup scrollY innerHeight rest cur m hr]
          exact heq
        · intro t ht q h'
          rcases List.mem_cons.mp ht with rfl | ht'
          · rw [hr] at h'; cases h'
          · exact hpre t ht' q h'
        · intro t ht q h'
          rcases List.mem_cons.mp ht with rfl | ht'
          · rw [hr] at h'; cases h'
          · exact hall t ht' q h'
    | some r =>
      by_cases hlt : m < visibilityRatio scrollY innerHeight r
      · rcases ih sid (visibilityRatio scrollY innerHeight r) with ⟨heq, hb⟩ |
          ⟨pre, sid', post, r'', hsplit, hr'', heq, hm, hpre, hall⟩
        · right
          refine ⟨[], sid, rest, r, rfl, hr, ?_, hlt, by simp, ?_⟩
          · rw [resolveLoop_cons_some lookup scrollY innerHeight rest cur m hr,
              if_pos hlt]
            exact heq
          · intro t ht q h'
            rcases List.mem_cons.mp ht with rfl | ht'
            · rw [hr] at h'
              exact le_of_eq (congrArg _ (Option.some.inj h').symm)
            · exact hb t ht' q h'
        · right
          refine ⟨sid :: pre, sid', post, r'', by rw [hsplit]; rfl, hr'', ?_,
            lt_trans hlt hm, ?_, ?_⟩
          · rw [resolveLoop_cons_some lookup scrollY innerHeight rest cur m hr,
              if_pos hlt]
            exact heq
          · intro t ht q h'
            rcases List.mem_cons.mp ht with rfl | ht'
            · rw [hr] at h'
              cases Option.some.inj h'
              exact hm
            · exact hpre t ht' q h'
          · intro t ht q h'
            rcases List.mem_cons.mp ht with rfl | ht'
            · rw [hr] at h'
              cases Option.some.inj h'
              exact le_of_lt hm
            · exact hall t ht' q h'
      · rcases ih cur m with ⟨heq, hb⟩ |
          ⟨pre, sid', post, r'', hsplit, hr'', heq, hm, hpre, hall⟩
        · left
          refine ⟨?_, ?_⟩
          · rw [resolveLoop_cons_some lookup scrollY innerHeight rest cur m hr,
              if_neg hlt]
            exact heq
          · intro t ht q h'
            rcases List.mem_cons.mp ht with rfl | ht'
            · rw [hr] at h'
              rw [(Option.some.inj h').symm]
              exact not_lt.mp hlt
            · exact hb t ht' q h'
        · right
          refine ⟨sid :: pre, sid', post, r'', by rw [hsplit]; rfl, hr'', ?_,
            hm, ?_, ?_⟩
          · rw [resolveLoop_cons_some lookup scrollY innerHeight rest cur m hr,
              if_neg hlt]
            exact heq
          · intro t ht q h'
            rcases List.mem_cons.mp ht with rfl | ht'
            · rw [hr] at h'
              rw [(Option.some.inj h').symm]
              exact lt_of_le_of_lt (not_lt.mp hlt) hm
            · exact hpre t ht' q h'
          · intro t ht q h'
            rcases List.mem_cons.mp ht with rfl | ht'
            · rw [hr] at h'
              rw [(Option.some.inj h').symm]
              exact le_of_lt (lt_of_le_of_lt (not_lt.mp hlt) hm)
            · exact hall t ht' q h'

theorem resolveLoopJS_cons_none (lookup : String → Option Region)
    (scrollY innerHeight : ℚ) {sid : String} (rest : List String)
    (cur : String) (m : ℚ) (h : lookup sid = none) :
    resolveLoopJS lookup scrollY innerHeight (sid :: rest) cur m
      = resolveLoopJS lookup scrollY innerHeight rest cur m := by
  simp [resolveLoopJS, h]

theorem resolveLoopJS_cons_nan (lookup : String → Option Region)
    (scrollY innerHeight : ℚ) {sid : String} {r : Region} (rest : List String)
    (cur : String) (m : ℚ) (h : lookup sid = some r) (h0 : r.height = 0) :
    resolveLoopJS lookup scrollY innerHeight (sid :: rest) cur m
      = resolveLoopJS lookup scrollY innerHeight rest cur m := by
  simp [resolveLoopJS, h, visibilityRatioJS, h0]

theorem resolveLoopJS_cons_some (lookup : String → Option Region)
    (scrollY innerHeight : ℚ) {sid : String} {r : Region} (rest : List String)
    (cur : String) (m : ℚ) (h : lookup sid = some r) (h0 : r.height ≠ 0) :
    resolveLoopJS lookup scrollY innerHeight (sid :: rest) cur m
      = if m < visibilityRatio scrollY innerHeight r then
          resolveLoopJS lookup scrollY innerHeight rest sid
            (visibilityRatio scrollY innerHeight r)
        else resolveLoopJS lookup scrollY innerHeight rest cur m := by
  simp [resolveLoopJS, h, visibilityRatioJS, h0]

/-- As long as the running maximum is nonnegative — as it always is,
starting from the source's `maxVisibility = 0` — the JavaScript-float
treatment of the `0 / 0` ratio (NaN, which never wins a `>` comparison)
selects exactly what treating the degenerate ratio as `0` selects: the
division by zero is harmless. -/
theorem resolveLoopJS_eq_resolveLoop (lookup : String → Option Region)
    (scrollY innerHeight : ℚ) :
    ∀ (l : List String) (cur : String) (m : ℚ), 0 ≤ m →
      resolveLoopJS lookup scrollY innerHeight l cur m
        = resolveLoop lookup scrollY innerHeight l cur m := by
  intro l
  induction l with
  | nil => intro cur m _; rfl
  | cons sid rest ih =>
    intro cur m hm
    cases hr : lookup sid with
    | none =>
      rw [resolveLoopJS_cons_none lookup scrollY innerHeight rest cur m hr,
        resolveLoop_cons_none lookup scrollY innerHeight rest cur m hr]
      exact ih cur m hm
    | some r =>
      by_cases h0 : r.height = 0
      · rw [resolveLoopJS_cons_nan lookup scrollY innerHeight rest cur m hr h0,
          resolveLoop_cons_some lookup scrollY innerHeight rest cur m hr,
          visibilityRatio_of_height_eq_zero scrollY innerHeight r h0,
          if_neg (not_lt.mpr hm)]
        exact ih cur m hm
      · rw [resolveLoopJS_cons_some lookup scrollY innerHeight rest cur m hr h0,
          resolveLoop_cons_some lookup scrollY innerHeight rest cur m hr]
        by_cases hlt : m < visibilityRatio scrollY innerHeight r
        · rw [if_pos hlt, if_pos hlt]
          exact ih sid _ (le_of_lt (lt_of_le_of_lt hm hlt))
        · rw [if_neg hlt, if_neg hlt]
          exact ih cur m hm

/-! ## Lemmas about the intersection-observer callback -/

/-- Under `triggerOnce = true` one callback invocation never turns the
exposed boolean off. -/
theorem exposed_latch_step (s : ObserverState) (b : Bool)
    (h : exposedIsIntersecting true s = true) :
    exposedIsIntersecting true (observerCallback true b s) = true := by
  rcases s with ⟨i, t⟩
  revert h
  cases i <;> cases t <;> cases b <;> decide

/-- Under `triggerOnce = false` the callback stores the notification's
instantaneous intersection state verbatim. -/
theorem exposed_toggle_step (s : ObserverState) (b : Bool) :
    exposedIsIntersecting false (observerCallback false b s) = b := by
  rcases s with ⟨i, t⟩
  cases i <;> cases t <;> cases b <;> decide

/-! ## Lemmas about the scroll throttle -/

theorem throttleStep_inv (s : ThrottleState) (e : ScrollEvent)
    (h : ThrottleInv s) : ThrottleInv (throttleStep s e) := by
  rcases s with ⟨tick, pending, recs⟩
  cases e with
  | scrollNote =>
    cases tick <;> simp_all [ThrottleInv, throttleStep]
  | frameRun y =>
    cases tick <;> simp_all [ThrottleInv, throttleStep]

theorem runEvents_inv (evs : List ScrollEvent) :
    ∀ s : ThrottleState, ThrottleInv s → ThrottleInv (runEvents s evs) := by
  induction evs with
  | nil => intro s h; exact h
  | cons e rest ih =>
    intro s h
    exact ih (throttleStep s e) (throttleStep_inv s e h)

theorem mountThrottle_inv (y : ℚ) : ThrottleInv (mountThrottle y) := rfl

/-! ## The claims -/

/-- C1: for every non-empty ordered section list whose elements all
resolve with positive height, one `handleScroll` pass (started, as in the
source, from the first section as default) selects exactly one
identifier: the first section attaining the maximum visibility ratio —
no section has a strictly greater ratio, and every strictly earlier
section has a strictly smaller one, so a later section with an equal
ratio never replaces the winner.  Concretely, with six gapless 1024px
sections, viewport height 1024 and scroll offset 1200, the winner is
`experience`. -/
theorem resolver_selects_earliest_max
    (secs : List String) (lookup : String → Option Region)
    (scrollY innerHeight : ℚ) (dflt : String)
    (hhead : secs.head? = some dflt)
    (hres : ∀ sid ∈ secs, ∃ r, lookup sid = some r ∧ 0 < r.height) :
    (∃ pre sid post, secs = pre ++ sid :: post ∧
      resolveCurrentFrom secs dflt lookup scrollY innerHeight = sid ∧
      (∀ t ∈ secs, ratioOf lookup scrollY innerHeight t
        ≤ ratioOf lookup scrollY innerHeight sid) ∧
      (∀ t ∈ pre, ratioOf lookup scrollY innerHeight t
        < ratioOf lookup scrollY innerHeight sid))
    ∧ resolveCurrentFrom sections "hero" lookup6 1200 1024 = "experience" := by
  constructor
  · rcases resolveLoop_spec lookup scrollY innerHeight secs dflt 0 with
      ⟨heq, hb⟩ | ⟨pre, sid, post, r, hsplit, hr, heq, _, hpre, hall⟩
    · obtain ⟨tail, rfl⟩ : ∃ tail, secs = dflt :: tail := by
        cases secs with
        | nil => cases hhead
        | cons a tl =>
          cases Option.some.inj hhead
          exact ⟨tl, rfl⟩
      obtain ⟨r0, hr0, hpos0⟩ := hres dflt (List.mem_cons_self _ _)
      have h0 : ratioOf lookup scrollY innerHeight dflt = 0 := by
        rw [ratioOf_eq_of_lookup lookup scrollY innerHeight hr0]
        exact le_antisymm (hb dflt (List.mem_cons_self _ _) r0 hr0)
          (visibilityRatio_nonneg scrollY innerHeight r0 (le_of_lt hpos0))
      refine ⟨[], dflt, tail, rfl, ?_, ?_, by simp⟩
      · simp [resolveCurrentFrom, heq]
      · intro t ht
        rw [h0]
        obtain ⟨rt, hrt, _⟩ := hres t ht
        rw [ratioOf_eq_of_lookup lookup scrollY innerHeight hrt]
        exact hb t ht rt hrt
    · refine ⟨pre, sid, post, hsplit, ?_, ?_, ?_⟩
      · simp [resolveCurrentFrom, heq]
      · intro t ht
        obtain ⟨rt, hrt, _⟩ := hres t ht
        rw [ratioOf_eq_of_lookup lookup scrollY innerHeight hrt,
          ratioOf_eq_of_lookup lookup scrollY innerHeight hr]
        exact hall t ht rt hrt
      · intro t ht
        have ht' : t ∈ secs := by
          rw [hsplit]
          exact List.mem_append_left _ ht
        obtain ⟨rt, hrt, _⟩ := hres t ht'
        rw [ratioOf_eq_of_lookup lookup scrollY innerHeight hrt,
          ratioOf_eq_of_lookup lookup scrollY innerHeight hr]
        exact hpre t ht rt hrt
  · simp only [resolveCurrentFrom, sections, resolveLoop, lookup6,
      String.reduceEq, reduceIte]
    norm_num [visibilityRatio, max_def, min_def]

/-- Witness for C1 at the spec's concrete scenario. -/
theorem resolver_selects_earliest_max_witness :
    (∃ pre sid post, sections = pre ++ sid :: post ∧
      resolveCurrentFrom sections "hero" lookup6 1200 1024 = sid ∧
      (∀ t ∈ sections, ratioOf lookup6 1200 1024 t
        ≤ ratioOf lookup6 1200 1024 sid) ∧
      (∀ t ∈ pre, ratioOf lookup6 1200 1024 t
        < ratioOf lookup6 1200 1024 sid))
    ∧ resolveCurrentFrom sections "hero" lookup6 1200 1024 = "experience" :=
  resolver_selects_earliest_max sections lookup6 1200 1024 "hero" rfl
    (by
      intro sid hsid
      simp only [sections, List.mem_cons, List.not_mem_nil, or_false] at hsid
      rcases hsid with rfl | rfl | rfl | rfl | rfl | rfl <;>
        exact ⟨_, rfl, by norm_num⟩)

/-- C2 counterexample: with the six-section layout scrolled far past all
content (viewport [10000, 11024]) no section has a positive visibility
ratio, yet a recomputation moves the current identifier from `contact`
back to `hero` instead of retaining it. -/
theorem no_visible_retention_counterexample :
    noPositiveRatio lookup6 10000 1024
    ∧ handleScroll lookup6 10000 1024 "contact" = "hero"
    ∧ "hero" ≠ "contact" := by
  refine ⟨?_, ?_, by decide⟩
  · intro sid hsid
    simp only [sections, List.mem_cons, List.not_mem_nil, or_false] at hsid
    rcases hsid with rfl | rfl | rfl | rfl | rfl | rfl <;>
      · simp only [ratioOf, lookup6, String.reduceEq, reduceIte]
        norm_num [visibilityRatio, max_def, min_def]
  · simp only [handleScroll, resolveCurrentFrom, sections, resolveLoop,
      lookup6, String.reduceEq, reduceIte, ne_eq]
    norm_num [visibilityRatio, max_def, min_def]
    exact fun h => h.symm

/-- C2 (amended): at every scroll state where no section has a positive
visibility ratio — unresolvable elements included — a recomputation sets
the current identifier to the first section `hero`, the loop's default,
regardless of the prior value; it does not retain the prior identifier,
though it does always emit some identifier. -/
theorem no_visible_resets_to_default (lookup : String → Option Region)
    (scrollY innerHeight : ℚ) (active : String)
    (h : noPositiveRatio lookup scrollY innerHeight) :
    handleScroll lookup scrollY innerHeight active = "hero" := by
  have hloop : resolveLoop lookup scrollY innerHeight sections "hero" 0
      = ("hero", 0) := by
    apply resolveLoop_no_update
    intro sid hsid r hr
    have hs := h sid hsid
    rwa [ratioOf_eq_of_lookup lookup scrollY innerHeight hr] at hs
  unfold handleScroll resolveCurrentFrom
  rw [hloop]
  rcases eq_or_ne active "hero" with rfl | hne
  · simp
  · simp [Ne.symm hne]

/-- Witness for the amended C2 at the concrete layout. -/
theorem no_visible_resets_to_default_witness :
    handleScroll lookup6 10000 1024 "contact" = "hero" :=
  no_visible_resets_to_default lookup6 10000 1024 "contact"
    (by
      intro sid hsid
      simp only [sections, List.mem_cons, List.not_mem_nil, or_false] at hsid
      rcases hsid with rfl | rfl | rfl | rfl | rfl | rfl <;>
        · simp only [ratioOf, lookup6, String.reduceEq, reduceIte]
          norm_num [visibilityRatio, max_def, min_def])

/-- C6 counterexample: a zero-height region can be the selected current
identifier — with only `hero` resolvable and of height 0, a
recomputation at scroll offset 0 emits `hero`, a zero-height region, via
the loop's default. -/
theorem zero_height_wins_as_default_counterexample :
    lookupZero "hero" = some ⟨0, 0⟩
    ∧ (Region.mk 0 0).height = 0
    ∧ resolveCurrentFrom sections "hero" lookupZero 0 1024 = "hero" := by
  refine ⟨rfl, rfl, ?_⟩
  simp only [resolveCurrentFrom, sections, resolveLoop, lookupZero,
    String.reduceEq, reduceIte]
  norm_num [visibilityRatio, max_def, min_def]

/-- C6 (amended): a zero-height region is harmless to the comparison:
its ratio is `0` under the guarded reading (the host's `0 / 0` NaN
selects identically, so the division by zero causes no misbehaviour),
and it never wins through the strict `>` comparison — the only way its
identifier is emitted is as the default first section `hero` when no
section has a positive visibility ratio. -/
theorem zero_height_never_wins_comparison (lookup : String → Option Region)
    (scrollY innerHeight : ℚ) (sid : String) (r : Region)
    (hr : lookup sid = some r) (h0 : r.height = 0) :
    ratioOf lookup scrollY innerHeight sid = 0
    ∧ (resolveCurrentFrom sections "hero" lookup scrollY innerHeight = sid →
        sid = "hero" ∧ noPositiveRatio lookup scrollY innerHeight)
    ∧ resolveLoopJS lookup scrollY innerHeight sections "hero" 0
        = resolveLoop lookup scrollY innerHeight sections "hero" 0 := by
  have hratio : ratioOf lookup scrollY innerHeight sid = 0 := by
    rw [ratioOf_eq_of_lookup lookup scrollY innerHeight hr]
    exact visibilityRatio_of_height_eq_zero scrollY innerHeight r h0
  refine ⟨hratio, ?_,
    resolveLoopJS_eq_resolveLoop lookup scrollY innerHeight sections
      "hero" 0 le_rfl⟩
  intro hwin
  rcases resolveLoop_spec lookup scrollY innerHeight sections "hero" 0 with
    ⟨heq, hb⟩ | ⟨pre, sid', post, r', _, hr', heq, hm, _, _⟩
  · have hcur :
        resolveCurrentFrom sections "hero" lookup scrollY innerHeight
          = "hero" := by
      simp [resolveCurrentFrom, heq]
    refine ⟨by rw [← hwin, hcur], ?_⟩
    intro t ht
    cases hrt : lookup t with
    | none => simp [ratioOf, hrt]
    | some rt =>
      rw [ratioOf_eq_of_lookup lookup scrollY innerHeight hrt]
      exact hb t ht rt hrt
  · exfalso
    have hres :
        resolveCurrentFrom sections "hero" lookup scrollY innerHeight
          = sid' := by
      simp [resolveCurrentFrom, heq]
    have hss : sid' = sid := by rw [← hres, hwin]
    subst hss
    rw [hr] at hr'
    cases Option.some.inj hr'
    rw [visibilityRatio_of_height_eq_zero scrollY innerHeight r h0] at hm
    exact lt_irrefl 0 hm

/-- Witness for the amended C6 at the degenerate layout. -/
theorem zero_height_never_wins_comparison_witness :
    ratioOf lookupZero 0 1024 "hero" = 0
    ∧ (resolveCurrentFrom sections "hero" lookupZero 0 1024 = "hero" →
        "hero" = "hero" ∧ noPositiveRatio lookupZero 0 1024)
    ∧ resolveLoopJS lookupZero 0 1024 sections "hero" 0
        = resolveLoop lookupZero 0 1024 sections "hero" 0 :=
  zero_height_never_wins_comparison lookupZero 0 1024 "hero" ⟨0, 0⟩ rfl rfl

/-- C3: activating a navigation control for identifier `item` sets the
active section to `item` synchronously and unconditionally — for every
document state and prior component state, hence regardless of any
visibility ratio and before any scroll-driven recomputation can observe
the old value — and when the element for `item` cannot be resolved the
identifier update still stands while no scroll is requested (the handler
is total, so no error is surfaced). -/
theorem nav_click_sets_identifier (getElementById : String → Bool)
    (item : String) (s : NavState) :
    (handleNavClick getElementById item s).1.activeSection = item
    ∧ ((handleNavClick getElementById item s).2
        = if getElementById item then some item else none)
    ∧ (getElementById item = false →
        (handleNavClick getElementById item s).2 = none) := by
  refine ⟨rfl, rfl, ?_⟩
  intro h
  simp [handleNavClick, h]

/-- Witness for C3: clicking `contact` with no element resolvable still
sets the identifier and requests no scroll. -/
theorem nav_click_sets_identifier_witness :
    (handleNavClick (fun _ => false) "contact"
      ⟨"hero", true⟩).1.activeSection = "contact"
    ∧ (handleNavClick (fun _ => false) "contact" ⟨"hero", true⟩).2 = none :=
  ⟨(nav_click_sets_identifier (fun _ => false) "contact" ⟨"hero", true⟩).1,
   (nav_click_sets_identifier (fun _ => false) "contact"
      ⟨"hero", true⟩).2.2 rfl⟩

/-- C4: under `triggerOnce = true`, once the hook's exposed visibility
boolean is true it stays true across every further sequence of
observation notifications — including notifications whose measured
intersection is false — so the latch never reverts. -/
theorem trigger_once_latch (s : ObserverState) (notes : List Bool)
    (h : exposedIsIntersecting true s = true) :
    exposedIsIntersecting true (runCallbacks true s notes) = true := by
  revert s
  induction notes with
  | nil => intro s h; exact h
  | cons b rest ih =>
    intro s h
    exact ih (observerCallback true b s) (exposed_latch_step s b h)

/-- Witness for C4: a latched element stays exposed through a run of
non-intersecting notifications. -/
theorem trigger_once_latch_witness :
    exposedIsIntersecting true
      (runCallbacks true ⟨true, true⟩ [false, false, true, false]) = true :=
  trigger_once_latch ⟨true, true⟩ [false, false, true, false] rfl

/-- C5: when the reduced-motion preference is true at mount (and the
element is attached), the mount effect immediately sets both state cells
true — making the exposed boolean true under either `triggerOnce`
configuration — and creates no observation subscription whatever the
environment support, threshold or root margin: the bypass takes
precedence over every other configuration. -/
theorem reduced_motion_bypass (observerSupported triggerOnce : Bool)
    (threshold : ℚ) (rootMargin : String) (s : ObserverState) :
    mountEffect true true observerSupported threshold rootMargin s
      = .ok (⟨true, true⟩, none)
    ∧ exposedIsIntersecting triggerOnce ⟨true, true⟩ = true := by
  refine ⟨rfl, ?_⟩
  cases triggerOnce <;> rfl

/-- C7: under `triggerOnce = false` the exposed boolean equals the
notification's instantaneous intersection state after every callback —
true above the threshold, false below — and this non-latching mode is
the only path to false-after-true: under `triggerOnce = true` the
exposed boolean never becomes false once true. -/
theorem non_latching_toggle :
    (∀ (s : ObserverState) (b : Bool),
        exposedIsIntersecting false (observerCallback false b s) = b)
    ∧ (∀ (s : ObserverState) (b : Bool),
        exposedIsIntersecting true s = true →
        exposedIsIntersecting true (observerCallback true b s) = true) :=
  ⟨exposed_toggle_step, exposed_latch_step⟩

/-- Witness for C7: a visible non-latching element toggles off on a
non-intersecting notification, while the latching mode stays on. -/
theorem non_latching_toggle_witness :
    exposedIsIntersecting false
      (observerCallback false false ⟨true, false⟩) = false
    ∧ exposedIsIntersecting true
        (observerCallback true false ⟨true, true⟩) = true :=
  ⟨non_latching_toggle.1 ⟨true, false⟩ false,
   non_latching_toggle.2 ⟨true, true⟩ false rfl⟩

/-- C8 counterexample: in a host without IntersectionObserver support
(element attached, reduced motion off, the hook's default threshold 1/10
and root margin `0px`), the mount effect throws a TypeError instead of
treating the element as visible, and the untouched initial state exposes
false under both configurations. -/
theorem unsupported_observer_counterexample :
    mountEffect true false false (1/10) "0px" ⟨false, false⟩
      = .error "TypeError: IntersectionObserver is not a constructor"
    ∧ exposedIsIntersecting true ⟨false, false⟩ = false
    ∧ exposedIsIntersecting false ⟨false, false⟩ = false :=
  ⟨rfl, rfl, rfl⟩

/-- C8 (amended): the hook performs no capability check: whenever the
element is attached and reduced motion is off, a host without
IntersectionObserver makes the mount effect throw a TypeError rather
than fail open; the state cells are never set, and the untouched initial
state exposes false under either configuration. -/
theorem unsupported_observer_throws (threshold : ℚ) (rootMargin : String)
    (s : ObserverState) (triggerOnce : Bool) :
    mountEffect true false false threshold rootMargin s
      = .error "TypeError: IntersectionObserver is not a constructor"
    ∧ exposedIsIntersecting triggerOnce ⟨false, false⟩ = false := by
  refine ⟨rfl, ?_⟩
  cases triggerOnce <;> rfl

/-- C9: along every event sequence from mount at most one frame callback
is pending; a scroll notification arriving while `ticking` is set is
dropped entirely, while one arriving when idle schedules exactly one
frame; a firing frame appends a recomputation at the scroll position
read at frame-run time; and mount itself runs one eager recomputation. -/
theorem scroll_throttle_coalesces :
    (∀ (y : ℚ) (evs : List ScrollEvent),
        (runEvents (mountThrottle y) evs).pendingFrames ≤ 1)
    ∧ (∀ s : ThrottleState, s.ticking = true →
        throttleStep s ScrollEvent.scrollNote = s)
    ∧ (∀ s : ThrottleState, s.ticking = false →
        throttleStep s ScrollEvent.scrollNote
          = { s with ticking := true, pendingFrames := s.pendingFrames + 1 })
    ∧ (∀ (s : ThrottleState) (y : ℚ), s.pendingFrames ≠ 0 →
        (throttleStep s (ScrollEvent.frameRun y)).recomputations
          = s.recomputations ++ [y])
    ∧ (∀ y : ℚ, (mountThrottle y).recomputations = [y]) := by
  refine ⟨?_, ?_, ?_, ?_, fun y => rfl⟩
  · intro y evs
    have hinv := runEvents_inv evs (mountThrottle y) (mountThrottle_inv y)
    unfold ThrottleInv at hinv
    rw [hinv]
    split <;> omega
  · intro s h
    simp [throttleStep, h]
  · intro s h
    simp [throttleStep, h]
  · intro s y h
    simp [throttleStep, h]

/-- Witness for C9 on a concrete burst: two notifications, one frame. -/
theorem scroll_throttle_coalesces_witness :
    (runEvents (mountThrottle 0)
      [ScrollEvent.scrollNote, ScrollEvent.scrollNote,
        ScrollEvent.frameRun 7]).pendingFrames ≤ 1
    ∧ throttleStep ⟨true, 1, [3]⟩ ScrollEvent.scrollNote = ⟨true, 1, [3]⟩
    ∧ throttleStep ⟨false, 0, [3]⟩ ScrollEvent.scrollNote = ⟨true, 1, [3]⟩
    ∧ (throttleStep ⟨true, 1, [3]⟩ (ScrollEvent.frameRun 9)).recomputations
        = [3, 9]
    ∧ (mountThrottle 5).recomputations = [5] := by
  refine ⟨scroll_throttle_coalesces.1 0 _,
    scroll_throttle_coalesces.2.1 _ rfl, ?_, ?_,
    scroll_throttle_coalesces.2.2.2.2 5⟩
  · have h := scroll_throttle_coalesces.2.2.1 ⟨false, 0, [3]⟩ rfl
    simpa using h
  · have h := scroll_throttle_coalesces.2.2.2.1 ⟨true, 1, [3]⟩ 9
      (by decide)
    simpa using h

/-- C10: if the element reference resolves to null when the mount effect
runs, the effect returns before the reduced-motion check: no observer is
created and the state cells are untouched, so the exposed boolean stays
false — even when the reduced-motion preference is true. -/
theorem unattached_element_stays_hidden
    (prefersReducedMotion observerSupported : Bool) (threshold : ℚ)
    (rootMargin : String) (triggerOnce : Bool) :
    mountEffect false prefersReducedMotion observerSupported threshold
      rootMargin ⟨false, false⟩ = .ok (⟨false, false⟩, none)
    ∧ exposedIsIntersecting triggerOnce ⟨false, false⟩ = false := by
  refine ⟨rfl, ?_⟩
  cases triggerOnce <;> rfl

end Portfolio
